import Mathlib

/-!
Shallow embedding of the food-waste-management ETL pipeline
(`etl_init_db.py`) and its read/query layer (`app.py`).

CSV cell values are Lean `String`s; pandas `Int64` (nullable integer)
columns are `Option Int`; calendar dates and timestamps are encoded as
`Nat` (`y*10000 + m*100 + d`, timestamps additionally carry a
seconds-of-day component), with unparseable values coerced to `none`
exactly as `pd.to_datetime(errors="coerce")` does.
-/

deriving instance DecidableEq for Except

namespace FoodWaste

/-- Python whitespace characters recognised by `str.strip()` (the ASCII ones;
the inputs of this program contain no exotic Unicode whitespace). -/
def pyWS (c : Char) : Bool :=
  c = ' ' || c = '\t' || c = '\n' || c = '\r' || c = '\x0b' || c = '\x0c'

/-- Strip leading and trailing whitespace from a character list. -/
def stripChars (l : List Char) : List Char :=
  ((l.dropWhile pyWS).reverse.dropWhile pyWS).reverse

/-- Models Python `str.strip()`. -/
def pyStrip (s : String) : String :=
  String.mk (stripChars s.toList)

/-- A Python value as it can reach `normalize` in `etl_init_db.py`
(cells of an object-dtype pandas column). -/
inductive PyVal where
  | pstr : String → PyVal
  | pint : Int → PyVal
  | pnone : PyVal
deriving DecidableEq, Repr

/-- Models Python `str(value)` on the values of `PyVal`. -/
def PyVal.toStr : PyVal → String
  | .pstr s => s
  | .pint n => toString n
  | .pnone => "None"

/-- Source `etl_init_db.py` lines 83-85: `def normalize(value, allowed, default):
v = str(value).strip(); return v if v in allowed else default`. -/
def normalize (value : PyVal) (allowed : List String) (dflt : String) : String :=
  let v := pyStrip value.toStr
  if v ∈ allowed then v else dflt

/-- Accumulate a decimal number from digit characters; any non-digit fails. -/
def digitsToNatGo (acc : Nat) : List Char → Option Nat
  | [] => some acc
  | c :: cs =>
    if '0' ≤ c && c ≤ '9' then digitsToNatGo (acc * 10 + (c.toNat - '0'.toNat)) cs
    else none

/-- Parse a non-empty all-digit character list as a natural number. -/
def digitsNat : List Char → Option Nat
  | [] => none
  | c :: cs => digitsToNatGo 0 (c :: cs)

/-- Parse an optionally `-`-signed decimal integer literal, as pandas
`to_numeric` accepts for an integer column. -/
def strToInt (s : String) : Option Int :=
  match s.toList with
  | [] => none
  | '-' :: rest => (digitsNat rest).map (fun n => -(Int.ofNat n))
  | l => (digitsNat l).map Int.ofNat

/-- Models reading a cell of a column declared `dtype="Int64"` with
`keep_default_na=False` (`etl_init_db.py` lines 48-51): pandas converts the
string through `to_numeric(errors="raise")`, so an integer literal yields a
value and anything else (including the empty string) raises `ValueError`. -/
def parseInt64 (s : String) : Except String (Option Int) :=
  match strToInt s with
  | some n => Except.ok (some n)
  | none => Except.error ("Unable to parse string " ++ s)

/-- Split a character list on every occurrence of a separator character
(same semantics as Python `str.split(sep)`). -/
def splitOnCharGo (sep : Char) (cur : List Char) : List Char → List (List Char)
  | [] => [cur.reverse]
  | c :: cs =>
    if c = sep then cur.reverse :: splitOnCharGo sep [] cs
    else splitOnCharGo sep (c :: cur) cs

/-- Split a character list on a separator character. -/
def splitOnChar (sep : Char) (l : List Char) : List (List Char) :=
  splitOnCharGo sep [] l

/-- Models `pd.to_datetime(errors="coerce")` on an ISO `YYYY-MM-DD` cell
(the format this program writes and reads), encoded `y*10000 + m*100 + d`;
unparseable cells become null. -/
def parseDate (s : String) : Option Nat :=
  match splitOnChar '-' (stripChars s.toList) with
  | [y, m, d] =>
    match digitsNat y, digitsNat m, digitsNat d with
    | some yn, some mn, some dn =>
      if 1 ≤ mn && mn ≤ 12 && 1 ≤ dn && dn ≤ 31 then
        some (yn * 10000 + mn * 100 + dn)
      else none
    | _, _, _ => none
  | _ => none

/-- Parse a seconds field that may carry a fractional part
(sub-second precision is not observed by any query). -/
def parseSeconds (s : List Char) : Option Nat :=
  match splitOnChar '.' s with
  | [w] => digitsNat w
  | [w, f] =>
    match digitsNat w, digitsNat f with
    | some wn, some _ => some wn
    | _, _ => none
  | _ => none

/-- Parse an `HH:MM:SS` time-of-day to seconds since midnight. -/
def parseTimeOfDay (s : List Char) : Option Nat :=
  match splitOnChar ':' s with
  | [h, m, sec] =>
    match digitsNat h, digitsNat m, parseSeconds sec with
    | some hn, some mn, some sn =>
      if hn ≤ 23 && mn ≤ 59 && sn ≤ 59 then some (hn * 3600 + mn * 60 + sn)
      else none
    | _, _, _ => none
  | _ => none

/-- Models `pd.to_datetime(errors="coerce")` on a `YYYY-MM-DD HH:MM:SS[.ffff]`
timestamp cell (`etl_init_db.py` line 57); unparseable cells become null. -/
def parseTimestampCell (s : String) : Option Nat :=
  match splitOnChar ' ' (stripChars s.toList) with
  | [d] => (parseDate (String.mk d)).map (fun dn => dn * 100000)
  | [d, t] =>
    match parseDate (String.mk d), parseTimeOfDay t with
    | some dn, some tn => some (dn * 100000 + tn)
    | _, _ => none
  | _ => none

/-! ## CSV rows (raw text, one structure per source file) -/

/-- A row of `providers_data.csv` as raw text cells. -/
structure ProviderCsv where
  providerId : String
  name : String
  ptype : String
  address : String
  city : String
  contact : String
deriving DecidableEq, Repr

/-- A row of `receivers_data.csv` as raw text cells. -/
structure ReceiverCsv where
  receiverId : String
  name : String
  rtype : String
  city : String
  contact : String
deriving DecidableEq, Repr

/-- A row of `food_listings_data.csv` as raw text cells. -/
structure ListingCsv where
  foodId : String
  foodName : String
  quantity : String
  expiryDate : String
  providerId : String
  providerType : String
  location : String
  foodType : String
  mealType : String
deriving DecidableEq, Repr

/-- A row of `claims_data.csv` as raw text cells. -/
structure ClaimCsv where
  claimId : String
  foodId : String
  receiverId : String
  status : String
  timestamp : String
deriving DecidableEq, Repr

/-! ## Typed rows after `pd.read_csv` (`Int64` columns are nullable) -/

/-- A provider row after `read_csv` with `Provider_ID` as nullable `Int64`. -/
structure RawProvider where
  providerId : Option Int
  name : String
  ptype : String
  address : String
  city : String
  contact : String
deriving DecidableEq, Repr

/-- A receiver row after `read_csv`. -/
structure RawReceiver where
  receiverId : Option Int
  name : String
  rtype : String
  city : String
  contact : String
deriving DecidableEq, Repr

/-- A listing row after `read_csv` and `Expiry_Date` date coercion. -/
structure RawListing where
  foodId : Option Int
  foodName : String
  quantity : String
  expiryDate : Option Nat
  providerId : Option Int
  providerType : String
  location : String
  foodType : String
  mealType : String
deriving DecidableEq, Repr

/-- A claim row after `read_csv` and `Timestamp` coercion. -/
structure RawClaim where
  claimId : Option Int
  foodId : Option Int
  receiverId : Option Int
  status : String
  timestamp : Option Nat
deriving DecidableEq, Repr

/-! ## Final rows after `astype(int)` -/

/-- A provider row after `astype(int)` on `Provider_ID`. -/
structure Provider where
  providerId : Int
  name : String
  ptype : String
  address : String
  city : String
  contact : String
deriving DecidableEq, Repr

/-- A receiver row after `astype(int)`. -/
structure Receiver where
  receiverId : Int
  name : String
  rtype : String
  city : String
  contact : String
deriving DecidableEq, Repr

/-- A listing row after `astype(int)` on `Food_ID` and `Provider_ID`. -/
structure Listing where
  foodId : Int
  foodName : String
  quantity : String
  expiryDate : Option Nat
  providerId : Int
  providerType : String
  location : String
  foodType : String
  mealType : String
deriving DecidableEq, Repr

/-- A claim row after `astype(int)` on its three id columns. -/
structure Claim where
  claimId : Int
  foodId : Int
  receiverId : Int
  status : String
  timestamp : Option Nat
deriving DecidableEq, Repr

/-! ## Reading one CSV row into its typed form (`etl_init_db.py` 47-57) -/

/-- Read one provider CSV row: `Provider_ID` through the `Int64` parser. -/
def readProviderCsv (r : ProviderCsv) : Except String RawProvider :=
  match parseInt64 r.providerId with
  | Except.error e => Except.error e
  | Except.ok pid =>
    Except.ok { providerId := pid, name := r.name, ptype := r.ptype,
                address := r.address, city := r.city, contact := r.contact }

/-- Read one receiver CSV row. -/
def readReceiverCsv (r : ReceiverCsv) : Except String RawReceiver :=
  match parseInt64 r.receiverId with
  | Except.error e => Except.error e
  | Except.ok rid =>
    Except.ok { receiverId := rid, name := r.name, rtype := r.rtype,
                city := r.city, contact := r.contact }

/-- Read one listing CSV row: `Food_ID` and `Provider_ID` through the `Int64`
parser, `Expiry_Date` through the coercing date parser. -/
def readListingCsv (r : ListingCsv) : Except String RawListing :=
  match parseInt64 r.foodId with
  | Except.error e => Except.error e
  | Except.ok fid =>
    match parseInt64 r.providerId with
    | Except.error e => Except.error e
    | Except.ok pid =>
      Except.ok { foodId := fid, foodName := r.foodName, quantity := r.quantity,
                  expiryDate := parseDate r.expiryDate, providerId := pid,
                  providerType := r.providerType, location := r.location,
                  foodType := r.foodType, mealType := r.mealType }

/-- Read one claim CSV row: the three id columns through the `Int64` parser,
`Timestamp` through the coercing timestamp parser. -/
def readClaimCsv (r : ClaimCsv) : Except String RawClaim :=
  match parseInt64 r.claimId with
  | Except.error e => Except.error e
  | Except.ok cid =>
    match parseInt64 r.foodId with
    | Except.error e => Except.error e
    | Except.ok fid =>
      match parseInt64 r.receiverId with
      | Except.error e => Except.error e
      | Except.ok rid =>
        Except.ok { claimId := cid, foodId := fid, receiverId := rid,
                    status := r.status,
                    timestamp := parseTimestampCell r.timestamp }

/-- Effectful map over a list in the `Except` monad, stopping at the first
error (as pandas parsing does). -/
def mapME (f : α → Except String β) : List α → Except String (List β)
  | [] => Except.ok []
  | x :: xs =>
    match f x with
    | Except.error e => Except.error e
    | Except.ok y =>
      match mapME f xs with
      | Except.error e => Except.error e
      | Except.ok ys => Except.ok (y :: ys)

/-! ## Deduplication (`etl_init_db.py` 59-63) -/

/-- Worker for `drop_duplicates(subset=[key])`: keeps a row when its key has
not been seen yet (pandas keeps the first occurrence; NA keys compare equal
to each other, which `Option Int` equality reproduces). -/
def dedupGo (key : α → Option Int) (seen : List (Option Int)) : List α → List α
  | [] => []
  | x :: xs =>
    if key x ∈ seen then dedupGo key seen xs
    else x :: dedupGo key (key x :: seen) xs

/-- Models `df.drop_duplicates(subset=[key])` (keep="first"). -/
def dedupByKey (key : α → Option Int) (l : List α) : List α :=
  dedupGo key [] l

/-- Models `df.dropna(subset=[key])`. -/
def dropNullKey (key : α → Option Int) (l : List α) : List α :=
  l.filter (fun x => (key x).isSome)

/-- Lines 59-63: `drop_duplicates(subset=[pk]).dropna(subset=[pk])`. -/
def dedupDropNull (key : α → Option Int) (l : List α) : List α :=
  dropNullKey key (dedupByKey key l)

/-! ## `astype(int)` (`etl_init_db.py` 65-72): raises on remaining NA -/

/-- Models `providers["Provider_ID"].astype(int)`. -/
def astypeProvider (r : RawProvider) : Except String Provider :=
  match r.providerId with
  | some n =>
    Except.ok { providerId := n, name := r.name, ptype := r.ptype,
                address := r.address, city := r.city, contact := r.contact }
  | none => Except.error "cannot convert NA to integer"

/-- Models `receivers["Receiver_ID"].astype(int)`. -/
def astypeReceiver (r : RawReceiver) : Except String Receiver :=
  match r.receiverId with
  | some n =>
    Except.ok { receiverId := n, name := r.name, rtype := r.rtype,
                city := r.city, contact := r.contact }
  | none => Except.error "cannot convert NA to integer"

/-- Models `listings[["Food_ID","Provider_ID"]].astype(int)` (NA `Provider_ID` can
still be present, `dropna` only covered `Food_ID`, and would raise here). -/
def astypeListing (r : RawListing) : Except String Listing :=
  match r.foodId, r.providerId with
  | some f, some p =>
    Except.ok { foodId := f, foodName := r.foodName, quantity := r.quantity,
                expiryDate := r.expiryDate, providerId := p,
                providerType := r.providerType, location := r.location,
                foodType := r.foodType, mealType := r.mealType }
  | _, _ => Except.error "cannot convert NA to integer"

/-- Models `claims[["Claim_ID","Food_ID","Receiver_ID"]].astype(int)`. -/
def astypeClaim (r : RawClaim) : Except String Claim :=
  match r.claimId, r.foodId, r.receiverId with
  | some c, some f, some rv =>
    Except.ok { claimId := c, foodId := f, receiverId := rv,
                status := r.status, timestamp := r.timestamp }
  | _, _, _ => Except.error "cannot convert NA to integer"

/-! ## Per-table normalization stages -/

/-- Dedup, drop-null and `astype` for the providers table. -/
def stageProviders (l : List RawProvider) : Except String (List Provider) :=
  mapME astypeProvider (dedupDropNull (fun r => r.providerId) l)

/-- Dedup, drop-null and `astype` for the receivers table. -/
def stageReceivers (l : List RawReceiver) : Except String (List Receiver) :=
  mapME astypeReceiver (dedupDropNull (fun r => r.receiverId) l)

/-- Dedup, drop-null and `astype` for the listings table (key `Food_ID`). -/
def stageListings (l : List RawListing) : Except String (List Listing) :=
  mapME astypeListing (dedupDropNull (fun r => r.foodId) l)

/-- Dedup, drop-null and `astype` for the claims table (key `Claim_ID`). -/
def stageClaims (l : List RawClaim) : Except String (List Claim) :=
  mapME astypeClaim (dedupDropNull (fun r => r.claimId) l)

/-! ## Categorical allowed sets (`etl_init_db.py` 87-96) -/

/-- Allowed provider `Type` values. -/
def providerTypes : List String :=
  ["Restaurant", "Grocery Store", "Supermarket", "Bakery", "Caterer", "Other"]

/-- Allowed receiver `Type` values. -/
def receiverTypes : List String :=
  ["NGO", "Community Center", "Individual", "Shelter", "Other"]

/-- Allowed `Food_Type` values. -/
def foodTypes : List String :=
  ["Vegetarian", "Non-Vegetarian", "Vegan", "Other"]

/-- Allowed `Meal_Type` values. -/
def mealTypes : List String :=
  ["Breakfast", "Lunch", "Dinner", "Snacks", "Other"]

/-- Allowed claim `Status` values. -/
def claimStatuses : List String :=
  ["Pending", "Completed", "Cancelled"]

/-- Line 88: normalize a provider's `Type`. -/
def catProvider (p : Provider) : Provider :=
  { p with ptype := normalize (.pstr p.ptype) providerTypes "Other" }

/-- Line 90: normalize a receiver's `Type`. -/
def catReceiver (r : Receiver) : Receiver :=
  { r with rtype := normalize (.pstr r.rtype) receiverTypes "Other" }

/-- Lines 92-94: normalize a listing's `Food_Type` and `Meal_Type`. -/
def catListing (l : Listing) : Listing :=
  { l with foodType := normalize (.pstr l.foodType) foodTypes "Other",
           mealType := normalize (.pstr l.mealType) mealTypes "Other" }

/-- Line 96: normalize a claim's `Status` (default `Pending`). -/
def catClaim (c : Claim) : Claim :=
  { c with status := normalize (.pstr c.status) claimStatuses "Pending" }

/-! ## The four input files and the full `_read_csvs` pipeline -/

/-- The four CSV sources as lists of raw rows. -/
structure CsvFiles where
  providers : List ProviderCsv
  receivers : List ReceiverCsv
  listings : List ListingCsv
  claims : List ClaimCsv
deriving DecidableEq, Repr

/-- The four typed tables directly after reading (lines 47-57). -/
structure RawTables where
  providers : List RawProvider
  receivers : List RawReceiver
  listings : List RawListing
  claims : List RawClaim
deriving DecidableEq, Repr

/-- The four normalized tables returned by `_read_csvs`. -/
structure Tables where
  providers : List Provider
  receivers : List Receiver
  listings : List Listing
  claims : List Claim
deriving DecidableEq, Repr

/-- Lines 47-57: read the four CSV files (first malformed `Int64` cell
raises, in file order providers, receivers, listings, claims). -/
def parseStage (f : CsvFiles) : Except String RawTables :=
  match mapME readProviderCsv f.providers with
  | Except.error e => Except.error e
  | Except.ok ps =>
    match mapME readReceiverCsv f.receivers with
    | Except.error e => Except.error e
    | Except.ok rs =>
      match mapME readListingCsv f.listings with
      | Except.error e => Except.error e
      | Except.ok ls =>
        match mapME readClaimCsv f.claims with
        | Except.error e => Except.error e
        | Except.ok cs =>
          Except.ok { providers := ps, receivers := rs,
                      listings := ls, claims := cs }

/-- Lines 74-76: keep only listings whose `Provider_ID` is a valid provider
id (`listings[listings["Provider_ID"].isin(valid_provider_ids)]`). -/
def refListings (ps : List Provider) (ls : List Listing) : List Listing :=
  ls.filter (fun l => decide (l.providerId ∈ ps.map (fun p => p.providerId)))

/-- Lines 78-80: keep only claims whose `Food_ID` is among the surviving
listings and whose `Receiver_ID` is a valid receiver id. -/
def refClaims (ls2 : List Listing) (rs : List Receiver) (cs : List Claim) :
    List Claim :=
  cs.filter (fun c =>
    decide (c.foodId ∈ ls2.map (fun l => l.foodId)) &&
    decide (c.receiverId ∈ rs.map (fun r => r.receiverId)))

/-- Lines 74-98: referential filtering followed by categorical
normalization of the four staged tables. -/
def assembleTables (ps : List Provider) (rs : List Receiver)
    (ls : List Listing) (cs : List Claim) : Tables :=
  let ls2 := refListings ps ls
  { providers := ps.map catProvider, receivers := rs.map catReceiver,
    listings := ls2.map catListing,
    claims := (refClaims ls2 rs cs).map catClaim }

/-- Lines 59-98: dedup/dropna/astype each table, then referential filtering
(listings against providers, then claims against the filtered listings and
the receivers), then categorical normalization. -/
def normStage (t : RawTables) : Except String Tables :=
  match stageProviders t.providers, stageReceivers t.receivers,
        stageListings t.listings, stageClaims t.claims with
  | Except.ok ps, Except.ok rs, Except.ok ls, Except.ok cs =>
    Except.ok (assembleTables ps rs ls cs)
  | Except.error e, _, _, _ => Except.error e
  | _, Except.error e, _, _ => Except.error e
  | _, _, Except.error e, _ => Except.error e
  | _, _, _, Except.error e => Except.error e

/-- The whole `_read_csvs` function. -/
def readCsvs (f : CsvFiles) : Except String Tables :=
  match parseStage f with
  | Except.error e => Except.error e
  | Except.ok raw => normStage raw

/-! ## `_ensure_dummy_data_if_missing` and `build_database` -/

/-- The file-system state `build_database` operates on: the four CSV sources
(absent or present) and the SQLite database file. -/
structure FsState where
  providersCsv : Option (List ProviderCsv)
  receiversCsv : Option (List ReceiverCsv)
  listingsCsv : Option (List ListingCsv)
  claimsCsv : Option (List ClaimCsv)
  db : Option Tables
deriving DecidableEq, Repr

/-- The clock-dependent strings the dummy-data generator writes:
`str(today+timedelta(days=1))`, `str(today+timedelta(days=2))`,
`str(datetime.utcnow())`. -/
structure DummyEnv where
  expiry1 : String
  expiry2 : String
  nowStr : String
deriving DecidableEq, Repr

/-- Lines 22-25: the dummy providers fixture. -/
def dummyProviders : List ProviderCsv :=
  [{ providerId := "1", name := "Green Bites", ptype := "Restaurant",
     address := "12 MG Road", city := "Bengaluru", contact := "99999-11111" },
   { providerId := "2", name := "FreshMart", ptype := "Grocery Store",
     address := "45 Anna Salai", city := "Chennai", contact := "99999-22222" }]

/-- Lines 27-30: the dummy receivers fixture. -/
def dummyReceivers : List ReceiverCsv :=
  [{ receiverId := "1", name := "Helping Hands NGO", rtype := "NGO",
     city := "Bengaluru", contact := "88888-11111" },
   { receiverId := "2", name := "City Shelter", rtype := "Shelter",
     city := "Chennai", contact := "88888-22222" }]

/-- Lines 32-38: the dummy listings fixture. -/
def dummyListings (env : DummyEnv) : List ListingCsv :=
  [{ foodId := "101", foodName := "Veg Biryani", quantity := "20",
     expiryDate := env.expiry1, providerId := "1",
     providerType := "Restaurant", location := "Bengaluru",
     foodType := "Vegetarian", mealType := "Lunch" },
   { foodId := "102", foodName := "Bread Loaves", quantity := "50",
     expiryDate := env.expiry2, providerId := "2",
     providerType := "Grocery Store", location := "Chennai",
     foodType := "Vegan", mealType := "Breakfast" }]

/-- Lines 40-45: the dummy claims fixture. -/
def dummyClaims (env : DummyEnv) : List ClaimCsv :=
  [{ claimId := "1001", foodId := "101", receiverId := "1",
     status := "Completed", timestamp := env.nowStr },
   { claimId := "1002", foodId := "101", receiverId := "1",
     status := "Pending", timestamp := env.nowStr },
   { claimId := "1003", foodId := "102", receiverId := "2",
     status := "Cancelled", timestamp := env.nowStr }]

/-- Lines 18-45: write each fixture only when its source file is absent. -/
def ensureDummy (env : DummyEnv) (fs : FsState) : FsState :=
  { fs with
    providersCsv := some (fs.providersCsv.getD dummyProviders)
    receiversCsv := some (fs.receiversCsv.getD dummyReceivers)
    listingsCsv := some (fs.listingsCsv.getD (dummyListings env))
    claimsCsv := some (fs.claimsCsv.getD (dummyClaims env)) }

/-- The per-table row counts `build_database` returns. -/
structure BuildInfo where
  counts : Nat × Nat × Nat × Nat
deriving DecidableEq, Repr

/-- Lines 105-131: ensure sources, read and normalize them (errors here leave
the old database untouched), then drop the old database and write the fresh
tables; the schema's constraints are a secondary net the pre-validated data
satisfies, so the bulk append is modelled as succeeding. -/
def build_database (env : DummyEnv) (fs : FsState) :
    Except String (FsState × BuildInfo) :=
  let fs1 := ensureDummy env fs
  match readCsvs
    { providers := fs1.providersCsv.getD []
      receivers := fs1.receiversCsv.getD []
      listings := fs1.listingsCsv.getD []
      claims := fs1.claimsCsv.getD [] } with
  | Except.error e => Except.error e
  | Except.ok t =>
    Except.ok ({ fs1 with db := some t },
      { counts := (t.providers.length, t.receivers.length,
                   t.listings.length, t.claims.length) })

/-! ## Query layer (`app.py`) -/

/-- Sort key for `ORDER BY Expiry_Date` (SQLite sorts NULL first in ASC). -/
def expKey (l : Listing) : Nat :=
  match l.expiryDate with
  | none => 0
  | some d => d + 1

/-- The `ORDER BY Expiry_Date` ascending relation. -/
def expLe (a b : Listing) : Prop := expKey a ≤ expKey b

instance : DecidableRel expLe := fun a b => Nat.decLe (expKey a) (expKey b)

instance : IsTotal Listing expLe := ⟨fun a b => Nat.le_total (expKey a) (expKey b)⟩

instance : IsTrans Listing expLe := ⟨fun _ _ _ h1 h2 => Nat.le_trans h1 h2⟩

/-- The `WHERE date(Expiry_Date) <= date('now', '+N day')` predicate: a NULL
expiry date makes the comparison NULL, so the row is excluded; there is no
lower bound in the query. -/
def expiryWithin (today n : Nat) (l : Listing) : Bool :=
  match l.expiryDate with
  | some d => decide (d ≤ today + n)
  | none => false

/-- Source `app.py` lines 102-105: the expiring-soon query. -/
def expiringSoon (today n : Nat) (ls : List Listing) : List Listing :=
  List.insertionSort expLe (ls.filter (expiryWithin today n))

/-- One `AND <column> IN (...)` clause of the filtered-listings query. -/
def inClause (col : Listing → String) (vals : List String) (l : Listing) : Bool :=
  decide (col l ∈ vals)

/-- Source `app.py` lines 88-93: each non-empty filter set appends one `IN` clause
(the dict-to-tuple parameter passing preserves this clause order). -/
def buildClauses (fCity fProv fFood fMeal : List String) :
    List (Listing → Bool) :=
  (if fCity.isEmpty then [] else [inClause (fun l => l.location) fCity]) ++
  (if fProv.isEmpty then [] else [inClause (fun l => l.providerType) fProv]) ++
  (if fFood.isEmpty then [] else [inClause (fun l => l.foodType) fFood]) ++
  (if fMeal.isEmpty then [] else [inClause (fun l => l.mealType) fMeal])

/-- Source `app.py` lines 88-97: `SELECT * FROM food_listings WHERE 1=1 AND ...`. -/
def filteredListings (fCity fProv fFood fMeal : List String)
    (ls : List Listing) : List Listing :=
  ls.filter (fun l => (buildClauses fCity fProv fFood fMeal).all (fun c => c l))

/-! ## SQL Queries tab (`app.py` 300-318) -/

/-- A value bound to a `?` placeholder. -/
inductive SqlParam where
  | strP : String → SqlParam
  | intP : Int → SqlParam
deriving DecidableEq, Repr

/-- Models Python `pat in s` (substring containment). -/
def containsChars (pat : List Char) : List Char → Bool
  | [] => pat.isPrefixOf ([] : List Char)
  | c :: cs => pat.isPrefixOf (c :: cs) || containsChars pat cs

/-- Models Python `pat in s` on strings. -/
def pyContains (s pat : String) : Bool :=
  containsChars pat.toList s.toList

/-- Models Python `s.replace(pat, rep)` for a non-empty pattern: replace
non-overlapping occurrences left to right (fuel is the string length, which
a non-empty pattern can never exhaust). -/
def replaceChars (pat rep : List Char) : Nat → List Char → List Char
  | _, [] => []
  | 0, l => l
  | fuel + 1, c :: cs =>
    if pat.isPrefixOf (c :: cs) then
      rep ++ replaceChars pat rep fuel (List.drop pat.length (c :: cs))
    else c :: replaceChars pat rep fuel cs

/-- Models Python `s.replace(pat, rep)` on strings. -/
def pyReplace (s pat rep : String) : String :=
  String.mk (replaceChars pat.toList rep.toList s.toList.length s.toList)

/-- Count of `?` placeholders in a prepared statement (sqlite3 requires the
bound parameter tuple to have exactly this length). -/
def placeholderCount (s : String) : Nat :=
  s.toList.count '?'

/-- Source `app.py` lines 302-313: parameter preparation for one library statement.
`params` starts empty; if `":city" in stmt` it becomes the one-element city
tuple and `:city` is replaced by `?`; if afterwards `":days" in stmt` then
`params` is REASSIGNED to the one-element `(7,)` tuple (the city binding is
discarded) and `:days` is replaced by `?`. -/
def prepareStmt (stmt defaultCity : String) : String × List SqlParam :=
  let p0 : List SqlParam := []
  let s1p1 :=
    if pyContains stmt ":city" then
      (pyReplace stmt ":city" "?", [SqlParam.strP defaultCity])
    else (stmt, p0)
  let s2p2 :=
    if pyContains s1p1.1 ":days" then
      (pyReplace s1p1.1 ":days" "?", [SqlParam.intP 7])
    else s1p1
  s2p2

/-! ## Concrete data used to instantiate the theorems below -/

/-- A fixed clock rendering for concrete runs of the dummy-data generator. -/
def fixtureEnv : DummyEnv :=
  { expiry1 := "2026-10-13", expiry2 := "2026-10-14",
    nowStr := "2026-10-12 08:00:00" }

/-- The four CSV sources as the dummy generator writes them. -/
def fixtureFiles : CsvFiles :=
  { providers := dummyProviders, receivers := dummyReceivers,
    listings := dummyListings fixtureEnv, claims := dummyClaims fixtureEnv }

/-- The tables `_read_csvs` produces from `fixtureFiles`. -/
def fixtureTables : Tables :=
  { providers :=
      [{ providerId := 1, name := "Green Bites", ptype := "Restaurant",
         address := "12 MG Road", city := "Bengaluru", contact := "99999-11111" },
       { providerId := 2, name := "FreshMart", ptype := "Grocery Store",
         address := "45 Anna Salai", city := "Chennai", contact := "99999-22222" }],
    receivers :=
      [{ receiverId := 1, name := "Helping Hands NGO", rtype := "NGO",
         city := "Bengaluru", contact := "88888-11111" },
       { receiverId := 2, name := "City Shelter", rtype := "Shelter",
         city := "Chennai", contact := "88888-22222" }],
    listings :=
      [{ foodId := 101, foodName := "Veg Biryani", quantity := "20",
         expiryDate := some 20261013, providerId := 1,
         providerType := "Restaurant", location := "Bengaluru",
         foodType := "Vegetarian", mealType := "Lunch" },
       { foodId := 102, foodName := "Bread Loaves", quantity := "50",
         expiryDate := some 20261014, providerId := 2,
         providerType := "Grocery Store", location := "Chennai",
         foodType := "Vegan", mealType := "Breakfast" }],
    claims :=
      [{ claimId := 1001, foodId := 101, receiverId := 1,
         status := "Completed", timestamp := some 2026101228800 },
       { claimId := 1002, foodId := 101, receiverId := 1,
         status := "Pending", timestamp := some 2026101228800 },
       { claimId := 1003, foodId := 102, receiverId := 2,
         status := "Cancelled", timestamp := some 2026101228800 }] }

/-- File-system state before any source or database exists. -/
def emptyFs : FsState :=
  { providersCsv := none, receiversCsv := none, listingsCsv := none,
    claimsCsv := none, db := none }

/-- File-system state after one `build_database` run on `emptyFs`. -/
def builtFs : FsState :=
  { providersCsv := some dummyProviders, receiversCsv := some dummyReceivers,
    listingsCsv := some (dummyListings fixtureEnv),
    claimsCsv := some (dummyClaims fixtureEnv), db := some fixtureTables }

/-- The row counts of the dummy fixture. -/
def fixtureInfo : BuildInfo := { counts := (2, 2, 2, 3) }

/-- A listing whose expiry date lies strictly before "today" in the
expiring-soon scenario below. -/
def pastListing : Listing :=
  { foodId := 1, foodName := "Stale Bread", quantity := "5",
    expiryDate := some 5, providerId := 1, providerType := "Bakery",
    location := "Bengaluru", foodType := "Other", mealType := "Other" }

/-- Input files whose providers table has a malformed `Provider_ID` cell. -/
def badIdFiles : CsvFiles :=
  { providers := [{ providerId := "abc", name := "N", ptype := "Restaurant",
                    address := "A", city := "C", contact := "K" }],
    receivers := [], listings := [], claims := [] }

/-- A listing CSV row whose `Expiry_Date` cell is not a date. -/
def badDateListing : ListingCsv :=
  { foodId := "7", foodName := "Rice", quantity := "3",
    expiryDate := "not-a-date", providerId := "1",
    providerType := "Restaurant", location := "C",
    foodType := "Vegetarian", mealType := "Lunch" }

/-- The typed row `badDateListing` loads to: the bad date became null. -/
def badDateRawListing : RawListing :=
  { foodId := some 7, foodName := "Rice", quantity := "3",
    expiryDate := none, providerId := some 1,
    providerType := "Restaurant", location := "C",
    foodType := "Vegetarian", mealType := "Lunch" }

/-- Input files whose provider `Type` differs from an allowed value only by
surrounding whitespace. -/
def wsTypeFiles : CsvFiles :=
  { providers := [{ providerId := "1", name := "N", ptype := " Restaurant ",
                    address := "A", city := "C", contact := "K" }],
    receivers := [], listings := [], claims := [] }

/-- The normalized output of `wsTypeFiles`. -/
def wsTypeTables : Tables :=
  { providers := [{ providerId := 1, name := "N", ptype := "Restaurant",
                    address := "A", city := "C", contact := "K" }],
    receivers := [], listings := [], claims := [] }

/-- Loaded input tables with one listing whose `Provider_ID` (999) matches no
provider, and one claim on that listing. -/
def orphanTables : RawTables :=
  { providers := [{ providerId := some 1, name := "P", ptype := "Restaurant",
                    address := "A", city := "C", contact := "K" }],
    receivers := [{ receiverId := some 5, name := "R", rtype := "NGO",
                    city := "C", contact := "K" }],
    listings :=
      [{ foodId := some 10, foodName := "Good", quantity := "1",
         expiryDate := some 20261001, providerId := some 1,
         providerType := "Restaurant", location := "C",
         foodType := "Vegan", mealType := "Lunch" },
       { foodId := some 11, foodName := "Orphan", quantity := "2",
         expiryDate := some 20261002, providerId := some 999,
         providerType := "Restaurant", location := "C",
         foodType := "Vegan", mealType := "Lunch" }],
    claims :=
      [{ claimId := some 100, foodId := some 10, receiverId := some 5,
         status := "Pending", timestamp := none },
       { claimId := some 101, foodId := some 11, receiverId := some 5,
         status := "Pending", timestamp := none }] }

/-- The staged (pre-filtering) listings of `orphanTables`. -/
def orphanLs1 : List Listing :=
  [{ foodId := 10, foodName := "Good", quantity := "1",
     expiryDate := some 20261001, providerId := 1,
     providerType := "Restaurant", location := "C",
     foodType := "Vegan", mealType := "Lunch" },
   { foodId := 11, foodName := "Orphan", quantity := "2",
     expiryDate := some 20261002, providerId := 999,
     providerType := "Restaurant", location := "C",
     foodType := "Vegan", mealType := "Lunch" }]

/-- The listing of `orphanTables` that is removed for bad provider linkage. -/
def orphanListing : Listing :=
  { foodId := 11, foodName := "Orphan", quantity := "2",
    expiryDate := some 20261002, providerId := 999,
    providerType := "Restaurant", location := "C",
    foodType := "Vegan", mealType := "Lunch" }

/-- The normalized output of `orphanTables`: the orphan listing and the claim
on it are gone. -/
def orphanOut : Tables :=
  { providers := [{ providerId := 1, name := "P", ptype := "Restaurant",
                    address := "A", city := "C", contact := "K" }],
    receivers := [{ receiverId := 5, name := "R", rtype := "NGO",
                    city := "C", contact := "K" }],
    listings :=
      [{ foodId := 10, foodName := "Good", quantity := "1",
         expiryDate := some 20261001, providerId := 1,
         providerType := "Restaurant", location := "C",
         foodType := "Vegan", mealType := "Lunch" }],
    claims :=
      [{ claimId := 100, foodId := 10, receiverId := 5,
         status := "Pending", timestamp := none }] }

/-- A statement of the query library that carries both named placeholders. -/
def bothParamsStmt : String :=
  "SELECT Name FROM providers WHERE City = :city AND 0 <= :days"

/-! ## Lemmas about the generic pipeline pieces -/

theorem mapME_ok_mem {α β : Type} {f : α → Except String β} :
    ∀ {l : List α} {l2 : List β}, mapME f l = Except.ok l2 →
      ∀ y ∈ l2, ∃ x, x ∈ l ∧ f x = Except.ok y := by
  intro l
  induction l with
  | nil =>
    intro l2 h y hy
    simp only [mapME, Except.ok.injEq] at h
    subst h
    simp at hy
  | cons a as ih =>
    intro l2 h y hy
    cases hfa : f a with
    | error e => simp [mapME, hfa] at h
    | ok b =>
      cases hrec : mapME f as with
      | error e => simp [mapME, hfa, hrec] at h
      | ok bs =>
        simp only [mapME, hfa, hrec, Except.ok.injEq] at h
        subst h
        rcases List.mem_cons.mp hy with rfl | hmem
        · exact ⟨a, List.mem_cons_self a as, hfa⟩
        · obtain ⟨x, hx, hfx⟩ := ih hrec y hmem
          exact ⟨x, List.mem_cons_of_mem a hx, hfx⟩

theorem mapME_ok_map {α β γ : Type} {f : α → Except String β} (g : β → γ)
    (k : α → γ) (hgk : ∀ x y, f x = Except.ok y → g y = k x) :
    ∀ {l : List α} {l2 : List β}, mapME f l = Except.ok l2 →
      l2.map g = l.map k := by
  intro l
  induction l with
  | nil =>
    intro l2 h
    simp only [mapME, Except.ok.injEq] at h
    subst h
    simp
  | cons a as ih =>
    intro l2 h
    cases hfa : f a with
    | error e => simp [mapME, hfa] at h
    | ok b =>
      cases hrec : mapME f as with
      | error e => simp [mapME, hfa, hrec] at h
      | ok bs =>
        simp only [mapME, hfa, hrec, Except.ok.injEq] at h
        subst h
        simp only [List.map_cons]
        rw [hgk a b hfa, ih hrec]

theorem dedupGo_sublist {α : Type} (key : α → Option Int) :
    ∀ (l : List α) (seen : List (Option Int)),
      (dedupGo key seen l).Sublist l := by
  intro l
  induction l with
  | nil => intro seen; simp [dedupGo]
  | cons a as ih =>
    intro seen
    by_cases hs : key a ∈ seen
    · simp only [dedupGo, if_pos hs]
      exact (ih seen).cons a
    · simp only [dedupGo, if_neg hs]
      exact (ih (key a :: seen)).cons₂ a

theorem dedupGo_keys {α : Type} (key : α → Option Int) :
    ∀ (l : List α) (seen : List (Option Int)),
      ((dedupGo key seen l).map key).Nodup ∧
      ∀ x ∈ dedupGo key seen l, key x ∉ seen := by
  intro l
  induction l with
  | nil => intro seen; refine ⟨by simp [dedupGo], by simp [dedupGo]⟩
  | cons a as ih =>
    intro seen
    by_cases hs : key a ∈ seen
    · simp only [dedupGo, if_pos hs]
      exact ih seen
    · simp only [dedupGo, if_neg hs]
      obtain ⟨ihn, ihs⟩ := ih (key a :: seen)
      refine ⟨?_, ?_⟩
      · simp only [List.map_cons, List.nodup_cons]
        refine ⟨?_, ihn⟩
        intro hmem
        obtain ⟨x, hx, hkx⟩ := List.mem_map.mp hmem
        exact (ihs x hx) (hkx ▸ List.mem_cons_self _ _)
      · intro x hx
        rcases List.mem_cons.mp hx with rfl | hx2
        · exact hs
        · exact fun hc => (ihs x hx2) (List.mem_cons_of_mem _ hc)

theorem mem_dedupGo {α : Type} (key : α → Option Int) :
    ∀ (l : List α) (seen : List (Option Int)) (x : α),
      x ∈ dedupGo key seen l ↔
        key x ∉ seen ∧
          l.find? (fun y => decide (key y = key x)) = some x := by
  intro l
  induction l with
  | nil => intro seen x; simp [dedupGo]
  | cons a as ih =>
    intro seen x
    by_cases hs : key a ∈ seen
    · simp only [dedupGo, if_pos hs]
      by_cases hk : key a = key x
      · rw [@List.find?_cons_of_pos _ (fun y => decide (key y = key x)) a as (decide_eq_true hk)]
        rw [ih seen x]
        constructor
        · rintro ⟨hns, _⟩
          exact absurd (hk ▸ hs) hns
        · rintro ⟨hns, _⟩
          exact absurd (hk ▸ hs) hns
      · rw [@List.find?_cons_of_neg _ (fun y => decide (key y = key x)) a as (by simp [hk])]
        exact ih seen x
    · simp only [dedupGo, if_neg hs]
      by_cases hk : key a = key x
      · rw [@List.find?_cons_of_pos _ (fun y => decide (key y = key x)) a as (decide_eq_true hk)]
        simp only [List.mem_cons]
        rw [ih (key a :: seen) x]
        constructor
        · rintro (rfl | ⟨hns, _⟩)
          · exact ⟨hk ▸ hs, rfl⟩
          · exact absurd (hk ▸ List.mem_cons_self _ _) hns
        · rintro ⟨hns, heq⟩
          injection heq with heq2
          exact Or.inl heq2.symm
      · rw [@List.find?_cons_of_neg _ (fun y => decide (key y = key x)) a as (by simp [hk])]
        simp only [List.mem_cons]
        rw [ih (key a :: seen) x]
        constructor
        · rintro (rfl | ⟨hns, hf⟩)
          · exact absurd rfl hk
          · exact ⟨fun hxs => hns (List.mem_cons_of_mem _ hxs), hf⟩
        · rintro ⟨hns, hf⟩
          refine Or.inr ⟨?_, hf⟩
          simp only [List.mem_cons]
          rintro (h1 | h2)
          · exact hk h1.symm
          · exact hns h2

theorem mem_dedupDropNull {α : Type} (key : α → Option Int) (l : List α)
    (x : α) :
    x ∈ dedupDropNull key l ↔
      (key x).isSome = true ∧
        l.find? (fun y => decide (key y = key x)) = some x := by
  unfold dedupDropNull dropNullKey dedupByKey
  rw [List.mem_filter, mem_dedupGo]
  simp only [List.not_mem_nil, not_false_iff, true_and]
  exact ⟨fun h => ⟨h.2, h.1⟩, fun h => ⟨h.2, h.1⟩⟩

theorem dedupDropNull_sublist {α : Type} (key : α → Option Int)
    (l : List α) : (dedupDropNull key l).Sublist l :=
  (List.filter_sublist _).trans (dedupGo_sublist key l [])

theorem dedupDropNull_keys_nodup {α : Type} (key : α → Option Int)
    (l : List α) : ((dedupDropNull key l).map key).Nodup := by
  have h1 := (dedupGo_keys key l []).1
  have h2 : (dedupDropNull key l).Sublist (dedupByKey key l) :=
    List.filter_sublist _
  exact List.Nodup.sublist (h2.map key) h1

/-! ## Lemmas about the per-table stages -/

theorem astypeProvider_ok {r : RawProvider} {p : Provider}
    (h : astypeProvider r = Except.ok p) :
    r.providerId = some p.providerId := by
  cases hr : r.providerId with
  | none => simp [astypeProvider, hr] at h
  | some n =>
    simp only [astypeProvider, hr, Except.ok.injEq] at h
    subst h
    rfl

theorem astypeReceiver_ok {r : RawReceiver} {p : Receiver}
    (h : astypeReceiver r = Except.ok p) :
    r.receiverId = some p.receiverId := by
  cases hr : r.receiverId with
  | none => simp [astypeReceiver, hr] at h
  | some n =>
    simp only [astypeReceiver, hr, Except.ok.injEq] at h
    subst h
    rfl

theorem astypeListing_ok {r : RawListing} {p : Listing}
    (h : astypeListing r = Except.ok p) :
    r.foodId = some p.foodId := by
  cases hf : r.foodId with
  | none => simp [astypeListing, hf] at h
  | some n =>
    cases hp : r.providerId with
    | none => simp [astypeListing, hf, hp] at h
    | some m =>
      simp only [astypeListing, hf, hp, Except.ok.injEq] at h
      subst h
      rfl

theorem astypeClaim_ok {r : RawClaim} {p : Claim}
    (h : astypeClaim r = Except.ok p) :
    r.claimId = some p.claimId := by
  cases hc : r.claimId with
  | none => simp [astypeClaim, hc] at h
  | some n =>
    cases hf : r.foodId with
    | none => simp [astypeClaim, hc, hf] at h
    | some m =>
      cases hr : r.receiverId with
      | none => simp [astypeClaim, hc, hf, hr] at h
      | some k =>
        simp only [astypeClaim, hc, hf, hr, Except.ok.injEq] at h
        subst h
        rfl

theorem stageProviders_keys_nodup {l : List RawProvider} {ps : List Provider}
    (h : stageProviders l = Except.ok ps) :
    (ps.map (fun p => p.providerId)).Nodup := by
  have hmap := mapME_ok_map (fun p : Provider => some p.providerId)
    (fun r : RawProvider => r.providerId)
    (fun x y hxy => (astypeProvider_ok hxy).symm) h
  have hnd := dedupDropNull_keys_nodup (fun r : RawProvider => r.providerId) l
  rw [← hmap] at hnd
  have heq : ps.map (fun p => some p.providerId)
      = (ps.map (fun p => p.providerId)).map some := by
    simp [List.map_map, Function.comp]
  rw [heq] at hnd
  exact hnd.of_map some

theorem stageReceivers_keys_nodup {l : List RawReceiver} {rs : List Receiver}
    (h : stageReceivers l = Except.ok rs) :
    (rs.map (fun r => r.receiverId)).Nodup := by
  have hmap := mapME_ok_map (fun p : Receiver => some p.receiverId)
    (fun r : RawReceiver => r.receiverId)
    (fun x y hxy => (astypeReceiver_ok hxy).symm) h
  have hnd := dedupDropNull_keys_nodup (fun r : RawReceiver => r.receiverId) l
  rw [← hmap] at hnd
  have heq : rs.map (fun p => some p.receiverId)
      = (rs.map (fun p => p.receiverId)).map some := by
    simp [List.map_map, Function.comp]
  rw [heq] at hnd
  exact hnd.of_map some

theorem stageListings_keys_nodup {l : List RawListing} {ls : List Listing}
    (h : stageListings l = Except.ok ls) :
    (ls.map (fun x => x.foodId)).Nodup := by
  have hmap := mapME_ok_map (fun p : Listing => some p.foodId)
    (fun r : RawListing => r.foodId)
    (fun x y hxy => (astypeListing_ok hxy).symm) h
  have hnd := dedupDropNull_keys_nodup (fun r : RawListing => r.foodId) l
  rw [← hmap] at hnd
  have heq : ls.map (fun p => some p.foodId)
      = (ls.map (fun p => p.foodId)).map some := by
    simp [List.map_map, Function.comp]
  rw [heq] at hnd
  exact hnd.of_map some

theorem stageClaims_keys_nodup {l : List RawClaim} {cs : List Claim}
    (h : stageClaims l = Except.ok cs) :
    (cs.map (fun c => c.claimId)).Nodup := by
  have hmap := mapME_ok_map (fun p : Claim => some p.claimId)
    (fun r : RawClaim => r.claimId)
    (fun x y hxy => (astypeClaim_ok hxy).symm) h
  have hnd := dedupDropNull_keys_nodup (fun r : RawClaim => r.claimId) l
  rw [← hmap] at hnd
  have heq : cs.map (fun p => some p.claimId)
      = (cs.map (fun p => p.claimId)).map some := by
    simp [List.map_map, Function.comp]
  rw [heq] at hnd
  exact hnd.of_map some

/-! ## Destructuring the pipeline -/

theorem normStage_ok {t : RawTables} {out : Tables}
    (h : normStage t = Except.ok out) :
    ∃ ps rs ls cs,
      stageProviders t.providers = Except.ok ps ∧
      stageReceivers t.receivers = Except.ok rs ∧
      stageListings t.listings = Except.ok ls ∧
      stageClaims t.claims = Except.ok cs ∧
      out = assembleTables ps rs ls cs := by
  unfold normStage at h
  split at h
  · rename_i ps rs ls cs h1 h2 h3 h4
    refine ⟨ps, rs, ls, cs, h1, h2, h3, h4, ?_⟩
    injection h with h5
    exact h5.symm
  all_goals exact Except.noConfusion h

theorem readCsvs_ok {f : CsvFiles} {out : Tables}
    (h : readCsvs f = Except.ok out) :
    ∃ raw, parseStage f = Except.ok raw ∧ normStage raw = Except.ok out := by
  unfold readCsvs at h
  cases hp : parseStage f with
  | error e => rw [hp] at h; exact Except.noConfusion h
  | ok raw => rw [hp] at h; exact ⟨raw, rfl, h⟩

theorem normalize_mem {v : PyVal} {allowed : List String} {dflt : String}
    (hd : dflt ∈ allowed) : normalize v allowed dflt ∈ allowed := by
  by_cases h : pyStrip v.toStr ∈ allowed
  · simp [normalize, h]
  · simp [normalize, h, hd]

/-! ## Claim theorems -/

/-- C1: for every set of input tables, after normalization every listing's
`Provider_ID` equals the `Provider_ID` of some row of the normalized
providers table, and every claim's `Food_ID` and `Receiver_ID` equal the key
of some row of the normalized listings and receivers tables respectively. -/
theorem normalized_references_resolve
    (f : CsvFiles) (out : Tables) (h : readCsvs f = Except.ok out) :
    (∀ l ∈ out.listings, ∃ p ∈ out.providers, p.providerId = l.providerId) ∧
    (∀ c ∈ out.claims,
      (∃ l ∈ out.listings, l.foodId = c.foodId) ∧
      (∃ r ∈ out.receivers, r.receiverId = c.receiverId)) := by
  obtain ⟨raw, hp, hn⟩ := readCsvs_ok h
  obtain ⟨ps, rs, ls, cs, h1, h2, h3, h4, hout⟩ := normStage_ok hn
  subst hout
  simp only [assembleTables]
  constructor
  · intro l hl
    obtain ⟨l0, hl0, rfl⟩ := List.mem_map.mp hl
    have hmem := List.mem_filter.mp hl0
    have hin : l0.providerId ∈ ps.map (fun p => p.providerId) :=
      of_decide_eq_true hmem.2
    obtain ⟨p, hpmem, hpk⟩ := List.mem_map.mp hin
    exact ⟨catProvider p, List.mem_map_of_mem catProvider hpmem, hpk⟩
  · intro c hc
    obtain ⟨c0, hc0, rfl⟩ := List.mem_map.mp hc
    have hmem := List.mem_filter.mp hc0
    have hmem2 := hmem.2
    rw [Bool.and_eq_true] at hmem2
    obtain ⟨hfood, hrecv⟩ := hmem2
    constructor
    · have hin : c0.foodId ∈ (refListings ps ls).map (fun l => l.foodId) :=
        of_decide_eq_true hfood
      obtain ⟨l2, hl2mem, hl2k⟩ := List.mem_map.mp hin
      exact ⟨catListing l2, List.mem_map_of_mem catListing hl2mem, hl2k⟩
    · have hin : c0.receiverId ∈ rs.map (fun r => r.receiverId) :=
        of_decide_eq_true hrecv
      obtain ⟨r2, hr2mem, hr2k⟩ := List.mem_map.mp hin
      exact ⟨catReceiver r2, List.mem_map_of_mem catReceiver hr2mem, hr2k⟩

/-- C1 witness: the dummy fixture instantiates the theorem. -/
theorem normalized_references_resolve_witness :
    readCsvs fixtureFiles = Except.ok fixtureTables ∧
    (∀ l ∈ fixtureTables.listings, ∃ p ∈ fixtureTables.providers,
      p.providerId = l.providerId) :=
  ⟨by decide,
   (normalized_references_resolve fixtureFiles fixtureTables (by decide)).1⟩

/-- C2: a claim on a listing that was removed for bad provider linkage is
absent from the normalized claims table (claims are filtered strictly after
listings are filtered). -/
theorem claims_filtered_after_listings
    (t : RawTables) (out : Tables) (ls1 : List Listing)
    (hout : normStage t = Except.ok out)
    (hls : stageListings t.listings = Except.ok ls1)
    (lf : Listing) (hlf : lf ∈ ls1)
    (hrem : ∀ p ∈ out.providers, p.providerId ≠ lf.providerId) :
    ∀ c ∈ out.claims, c.foodId ≠ lf.foodId := by
  obtain ⟨ps, rs, ls, cs, h1, h2, h3, h4, ho⟩ := normStage_ok hout
  rw [hls] at h3
  injection h3 with hinj
  subst hinj
  subst ho
  intro c hc hceq
  simp only [assembleTables] at hc hrem
  obtain ⟨c0, hc0, rfl⟩ := List.mem_map.mp hc
  have hm := List.mem_filter.mp hc0
  have hm2 := hm.2
  rw [Bool.and_eq_true] at hm2
  obtain ⟨hfood, hrecv⟩ := hm2
  have hfood2 : c0.foodId ∈ (refListings ps ls1).map (fun l => l.foodId) :=
    of_decide_eq_true hfood
  obtain ⟨l2, hl2mem, hl2k⟩ := List.mem_map.mp hfood2
  have hl2 := List.mem_filter.mp hl2mem
  have hnd := stageListings_keys_nodup hls
  have hl2lf : l2 = lf := by
    refine List.inj_on_of_nodup_map hnd hl2.1 hlf ?_
    rw [hl2k]
    exact hceq
  subst hl2lf
  have hpin : l2.providerId ∈ ps.map (fun p => p.providerId) :=
    of_decide_eq_true hl2.2
  obtain ⟨p, hpmem, hpk⟩ := List.mem_map.mp hpin
  exact hrem (catProvider p) (List.mem_map_of_mem catProvider hpmem) hpk

/-- C2 witness: on `orphanTables` the listing with `Provider_ID = 999` is
removed and no normalized claim carries its `Food_ID` (11). -/
theorem claims_filtered_after_listings_witness :
    normStage orphanTables = Except.ok orphanOut ∧
    stageListings orphanTables.listings = Except.ok orphanLs1 ∧
    orphanListing ∈ orphanLs1 ∧
    (∀ p ∈ orphanOut.providers, p.providerId ≠ orphanListing.providerId) ∧
    (∀ c ∈ orphanOut.claims, c.foodId ≠ orphanListing.foodId) :=
  ⟨by decide, by decide, by decide, by decide,
   claims_filtered_after_listings orphanTables orphanOut orphanLs1
     (by decide) (by decide) orphanListing (by decide) (by decide)⟩

/-- C5 counterexample: the input provider `Type` value `" Restaurant "` is
outside the allowed set, yet normalization keeps it (stripped to
`"Restaurant"`) instead of mapping it to the default `"Other"`,
so "any input value outside the set is mapped to the fixed default" fails
as stated. -/
theorem categorical_default_cex :
    readCsvs wsTypeFiles = Except.ok wsTypeTables ∧
    wsTypeTables.providers.map (fun p => p.ptype) = ["Restaurant"] ∧
    " Restaurant " ∉ providerTypes ∧ "Restaurant" ≠ "Other" :=
  ⟨by decide, by decide, by decide, by decide⟩

/-- C5 (amended): after normalization every constrained categorical field
holds a member of its declared allowed set, and any input whose STRIPPED
string form is outside the set is mapped to the fixed default. -/
theorem categorical_allowed_membership :
    (∀ (f : CsvFiles) (out : Tables), readCsvs f = Except.ok out →
      (∀ p ∈ out.providers, p.ptype ∈ providerTypes) ∧
      (∀ r ∈ out.receivers, r.rtype ∈ receiverTypes) ∧
      (∀ l ∈ out.listings, l.foodType ∈ foodTypes ∧ l.mealType ∈ mealTypes) ∧
      (∀ c ∈ out.claims, c.status ∈ claimStatuses)) ∧
    (∀ (v : PyVal) (allowed : List String) (dflt : String),
      pyStrip v.toStr ∉ allowed → normalize v allowed dflt = dflt) := by
  constructor
  · intro f out h
    obtain ⟨raw, hp, hn⟩ := readCsvs_ok h
    obtain ⟨ps, rs, ls, cs, h1, h2, h3, h4, hout⟩ := normStage_ok hn
    subst hout
    simp only [assembleTables]
    refine ⟨?_, ?_, ?_, ?_⟩
    · intro p hp2
      obtain ⟨p0, _, rfl⟩ := List.mem_map.mp hp2
      exact normalize_mem (by decide)
    · intro r hr2
      obtain ⟨r0, _, rfl⟩ := List.mem_map.mp hr2
      exact normalize_mem (by decide)
    · intro l hl2
      obtain ⟨l0, _, rfl⟩ := List.mem_map.mp hl2
      exact ⟨normalize_mem (by decide), normalize_mem (by decide)⟩
    · intro c hc2
      obtain ⟨c0, _, rfl⟩ := List.mem_map.mp hc2
      exact normalize_mem (by decide)
  · intro v allowed dflt hna
    simp [normalize, hna]

/-- C5 witness: the whitespace-typed fixture instantiates the membership
half, and a junk value instantiates the default half. -/
theorem categorical_allowed_membership_witness :
    readCsvs wsTypeFiles = Except.ok wsTypeTables ∧
    (∀ p ∈ wsTypeTables.providers, p.ptype ∈ providerTypes) ∧
    normalize (PyVal.pstr "junk") providerTypes "Other" = "Other" :=
  ⟨by decide,
   (categorical_allowed_membership.1 wsTypeFiles wsTypeTables (by decide)).1,
   categorical_allowed_membership.2 (PyVal.pstr "junk") providerTypes "Other"
     (by decide)⟩

/-- C6: after normalization no two rows of a table share a primary key; at
the dedup stage a row survives exactly when its key is non-null and it is
the first occurrence of that key in source order. -/
theorem primary_key_dedup :
    (∀ (f : CsvFiles) (out : Tables), readCsvs f = Except.ok out →
      (out.providers.map (fun p => p.providerId)).Nodup ∧
      (out.receivers.map (fun r => r.receiverId)).Nodup ∧
      (out.listings.map (fun l => l.foodId)).Nodup ∧
      (out.claims.map (fun c => c.claimId)).Nodup) ∧
    (∀ (α : Type) (key : α → Option Int) (l : List α) (x : α),
      x ∈ dedupDropNull key l ↔
        (key x).isSome = true ∧
          l.find? (fun y => decide (key y = key x)) = some x) := by
  constructor
  · intro f out h
    obtain ⟨raw, hp, hn⟩ := readCsvs_ok h
    obtain ⟨ps, rs, ls, cs, h1, h2, h3, h4, hout⟩ := normStage_ok hn
    subst hout
    simp only [assembleTables]
    refine ⟨?_, ?_, ?_, ?_⟩
    · have heq : (ps.map catProvider).map (fun p => p.providerId)
          = ps.map (fun p => p.providerId) := by
        simp [List.map_map, Function.comp, catProvider]
      rw [heq]
      exact stageProviders_keys_nodup h1
    · have heq : (rs.map catReceiver).map (fun r => r.receiverId)
          = rs.map (fun r => r.receiverId) := by
        simp [List.map_map, Function.comp, catReceiver]
      rw [heq]
      exact stageReceivers_keys_nodup h2
    · have heq : ((refListings ps ls).map catListing).map (fun l => l.foodId)
          = (refListings ps ls).map (fun l => l.foodId) := by
        simp [List.map_map, Function.comp, catListing]
      rw [heq]
      have hsub : ((refListings ps ls).map (fun l => l.foodId)).Sublist
          (ls.map (fun l => l.foodId)) :=
        (List.filter_sublist ls).map (fun l => l.foodId)
      exact List.Nodup.sublist hsub (stageListings_keys_nodup h3)
    · have heq : ((refClaims (refListings ps ls) rs cs).map catClaim).map
            (fun c => c.claimId)
          = (refClaims (refListings ps ls) rs cs).map (fun c => c.claimId) := by
        simp [List.map_map, Function.comp, catClaim]
      rw [heq]
      have hsub : ((refClaims (refListings ps ls) rs cs).map
            (fun c => c.claimId)).Sublist (cs.map (fun c => c.claimId)) :=
        (List.filter_sublist cs).map (fun c => c.claimId)
      exact List.Nodup.sublist hsub (stageClaims_keys_nodup h4)
  · intro α key l x
    exact mem_dedupDropNull key l x

/-- C6 witness: the dummy fixture instantiates the uniqueness half, and a
small list with a duplicate key instantiates the first-kept half. -/
theorem primary_key_dedup_witness :
    readCsvs fixtureFiles = Except.ok fixtureTables ∧
    (fixtureTables.claims.map (fun c => c.claimId)).Nodup ∧
    ((some 3 : Option Int) ∈ dedupDropNull id [some 3, some 3, none] ↔
      (id (some 3 : Option Int)).isSome = true ∧
        List.find? (fun y => decide (id y = id (some 3 : Option Int)))
          [some 3, some 3, none] = some (some 3)) := by
  refine ⟨by decide, ?_, ?_⟩
  · exact (primary_key_dedup.1 fixtureFiles fixtureTables (by decide)).2.2.2
  · exact primary_key_dedup.2 (Option Int) id [some 3, some 3, none] (some 3)

/-- C3 counterexample: with today = 10 and N = 7 the query returns a listing
whose expiry date 5 lies strictly before today, so "dates strictly before
today are excluded" fails: the query has no lower bound. -/
theorem expiring_soon_no_lower_bound_cex :
    expiringSoon 10 7 [pastListing] = [pastListing] ∧
    pastListing.expiryDate = some 5 ∧ 5 < 10 :=
  ⟨by decide, by decide, by decide⟩

/-- C3 (amended): the expiring-soon query returns exactly the listings whose
expiry date is non-null and at most today + N (dates before today are also
returned: the query has only the upper bound), ordered by ascending expiry
date. -/
theorem expiring_soon_upper_bound_only (today n : Nat) (ls : List Listing) :
    (expiringSoon today n ls).Perm (ls.filter (expiryWithin today n)) ∧
    List.Sorted expLe (expiringSoon today n ls) ∧
    (∀ l, l ∈ expiringSoon today n ls ↔
      l ∈ ls ∧ ∃ d, l.expiryDate = some d ∧ d ≤ today + n) := by
  refine ⟨List.perm_insertionSort expLe (ls.filter (expiryWithin today n)),
    List.sorted_insertionSort expLe (ls.filter (expiryWithin today n)), ?_⟩
  intro l
  constructor
  · intro hl
    have hl2 := (List.mem_insertionSort expLe).mp hl
    have hm := List.mem_filter.mp hl2
    refine ⟨hm.1, ?_⟩
    have hw := hm.2
    unfold expiryWithin at hw
    cases hd : l.expiryDate with
    | none => rw [hd] at hw; exact absurd hw (by simp)
    | some d =>
      rw [hd] at hw
      exact ⟨d, rfl, of_decide_eq_true hw⟩
  · rintro ⟨hmem, d, hd, hle⟩
    apply (List.mem_insertionSort expLe).mpr
    apply List.mem_filter.mpr
    refine ⟨hmem, ?_⟩
    unfold expiryWithin
    rw [hd]
    exact decide_eq_true hle

/-- C3 witness: the amended theorem instantiated on the past-dated listing. -/
theorem expiring_soon_upper_bound_only_witness :
    List.Sorted expLe (expiringSoon 10 7 [pastListing]) ∧
    (pastListing ∈ expiringSoon 10 7 [pastListing] ↔
      pastListing ∈ [pastListing] ∧
        ∃ d, pastListing.expiryDate = some d ∧ d ≤ 10 + 7) :=
  ⟨(expiring_soon_upper_bound_only 10 7 [pastListing]).2.1,
   (expiring_soon_upper_bound_only 10 7 [pastListing]).2.2 pastListing⟩

/-- C4 counterexample: a malformed value in the numeric `Provider_ID` column
makes the load raise (pandas `dtype="Int64"` conversion), so "loading never
raises on malformed field values" fails as stated. -/
theorem load_raises_on_malformed_id_cex :
    readCsvs badIdFiles = Except.error "Unable to parse string abc" := by
  decide

/-- C4 (amended): malformed values in the date/timestamp columns are coerced
to null and never fail the load, but a malformed value in a numeric ID
column raises a load error. -/
theorem load_coercion_policy :
    (∀ (r : ListingCsv) (fid pid : Option Int),
      parseInt64 r.foodId = Except.ok fid →
      parseInt64 r.providerId = Except.ok pid →
      readListingCsv r = Except.ok
        { foodId := fid, foodName := r.foodName, quantity := r.quantity,
          expiryDate := parseDate r.expiryDate, providerId := pid,
          providerType := r.providerType, location := r.location,
          foodType := r.foodType, mealType := r.mealType }) ∧
    (∀ (r : ClaimCsv) (cid fid rid : Option Int),
      parseInt64 r.claimId = Except.ok cid →
      parseInt64 r.foodId = Except.ok fid →
      parseInt64 r.receiverId = Except.ok rid →
      readClaimCsv r = Except.ok
        { claimId := cid, foodId := fid, receiverId := rid,
          status := r.status, timestamp := parseTimestampCell r.timestamp }) ∧
    (∀ (r : ProviderCsv) (e : String),
      parseInt64 r.providerId = Except.error e →
      readProviderCsv r = Except.error e) := by
  refine ⟨?_, ?_, ?_⟩
  · intro r fid pid h1 h2
    unfold readListingCsv
    rw [h1, h2]
  · intro r cid fid rid h1 h2 h3
    unfold readClaimCsv
    rw [h1, h2, h3]
  · intro r e h1
    unfold readProviderCsv
    rw [h1]

/-- C4 witness: a listing row with an unparseable `Expiry_Date` loads
successfully with a null date. -/
theorem load_coercion_policy_witness :
    parseInt64 badDateListing.foodId = Except.ok (some 7) ∧
    parseDate badDateListing.expiryDate = none ∧
    readListingCsv badDateListing = Except.ok badDateRawListing := by
  refine ⟨by decide, by decide, ?_⟩
  have h := load_coercion_policy.1 badDateListing (some 7) (some 1)
    (by decide) (by decide)
  rw [h]
  decide

/-- C9 (code bug): for a library statement containing both `:city` and
`:days`, the preparation replaces both placeholders with `?` but the second
assignment overwrites the parameter tuple, binding only `(7,)` — one value
for two placeholders — instead of both a city and a days value. -/
theorem both_placeholders_bind_single_param :
    prepareStmt bothParamsStmt "Bengaluru"
      = ("SELECT Name FROM providers WHERE City = ? AND 0 <= ?",
         [SqlParam.intP 7]) ∧
    placeholderCount (prepareStmt bothParamsStmt "Bengaluru").1 = 2 ∧
    (prepareStmt bothParamsStmt "Bengaluru").2.length = 1 :=
  ⟨by decide, by decide, by decide⟩

theorem ensureDummy_stable (env1 env2 : DummyEnv) (fs : FsState)
    (d : Option Tables) :
    ensureDummy env2 { ensureDummy env1 fs with db := d }
      = { ensureDummy env1 fs with db := d } := by
  simp [ensureDummy]

/-- C7: rebuilding is idempotent: if a run of `build_database` produced the
file-system state `fs1` (the sources it ensured plus the fresh store) and
row counts `info`, a second run on unchanged sources reproduces exactly the
same state and the same counts, whatever the clock says. -/
theorem rebuild_idempotent (env1 env2 : DummyEnv) (fs fs1 : FsState)
    (info : BuildInfo)
    (h : build_database env1 fs = Except.ok (fs1, info)) :
    build_database env2 fs1 = Except.ok (fs1, info) := by
  simp only [build_database] at h
  cases hrc : readCsvs
      { providers := (ensureDummy env1 fs).providersCsv.getD []
        receivers := (ensureDummy env1 fs).receiversCsv.getD []
        listings := (ensureDummy env1 fs).listingsCsv.getD []
        claims := (ensureDummy env1 fs).claimsCsv.getD [] } with
  | error e => rw [hrc] at h; exact Except.noConfusion h
  | ok t =>
    rw [hrc] at h
    injection h with h5
    have hfs : fs1 = { ensureDummy env1 fs with db := some t } :=
      (congrArg Prod.fst h5).symm
    have hinfo : info
        = { counts := (t.providers.length, t.receivers.length,
                       t.listings.length, t.claims.length) } :=
      (congrArg Prod.snd h5).symm
    subst hfs
    subst hinfo
    simp only [build_database]
    rw [ensureDummy_stable env1 env2 fs (some t)]
    rw [hrc]

/-- C7 witness: building from nothing and rebuilding from the produced state
give the same store contents and counts. -/
theorem rebuild_idempotent_witness :
    build_database fixtureEnv emptyFs = Except.ok (builtFs, fixtureInfo) ∧
    build_database fixtureEnv builtFs = Except.ok (builtFs, fixtureInfo) :=
  ⟨by decide,
   rebuild_idempotent fixtureEnv fixtureEnv emptyFs builtFs fixtureInfo
     (by decide)⟩

theorem buildClauses_all (fCity fProv fFood fMeal : List String)
    (l : Listing) :
    (buildClauses fCity fProv fFood fMeal).all (fun c => c l)
      = ((fCity.isEmpty || decide (l.location ∈ fCity)) &&
         ((fProv.isEmpty || decide (l.providerType ∈ fProv)) &&
          ((fFood.isEmpty || decide (l.foodType ∈ fFood)) &&
           (fMeal.isEmpty || decide (l.mealType ∈ fMeal))))) := by
  unfold buildClauses inClause
  cases fCity <;> cases fProv <;> cases fFood <;> cases fMeal <;>
    simp [List.all_append]

/-- C8: the filtered-listing query returns exactly the listings that satisfy
every non-empty filter set (membership within a field, conjunction across
fields); an empty filter set imposes no restriction, and with all filters
empty every listing is returned. -/
theorem filtered_listings_characterization
    (fCity fProv fFood fMeal : List String) (ls : List Listing) :
    (filteredListings fCity fProv fFood fMeal ls
      = ls.filter (fun l =>
          (fCity.isEmpty || decide (l.location ∈ fCity)) &&
          ((fProv.isEmpty || decide (l.providerType ∈ fProv)) &&
           ((fFood.isEmpty || decide (l.foodType ∈ fFood)) &&
            (fMeal.isEmpty || decide (l.mealType ∈ fMeal)))))) ∧
    filteredListings [] [] [] [] ls = ls ∧
    (∀ l, l ∈ filteredListings fCity fProv fFood fMeal ls ↔
      l ∈ ls ∧ (fCity = [] ∨ l.location ∈ fCity) ∧
        (fProv = [] ∨ l.providerType ∈ fProv) ∧
        (fFood = [] ∨ l.foodType ∈ fFood) ∧
        (fMeal = [] ∨ l.mealType ∈ fMeal)) := by
  have hfirst : filteredListings fCity fProv fFood fMeal ls
      = ls.filter (fun l =>
          (fCity.isEmpty || decide (l.location ∈ fCity)) &&
          ((fProv.isEmpty || decide (l.providerType ∈ fProv)) &&
           ((fFood.isEmpty || decide (l.foodType ∈ fFood)) &&
            (fMeal.isEmpty || decide (l.mealType ∈ fMeal))))) := by
    unfold filteredListings
    exact List.filter_congr (fun a _ => buildClauses_all fCity fProv fFood fMeal a)
  refine ⟨hfirst, ?_, ?_⟩
  · unfold filteredListings
    simp [buildClauses]
  · intro l
    rw [hfirst, List.mem_filter]
    simp [List.isEmpty_iff, decide_eq_true_eq, Bool.and_eq_true,
      Bool.or_eq_true, and_assoc]

/-- C8 witness: on the fixture listings, a `{Bengaluru}` city filter keeps
exactly the Bengaluru row and the empty filter keeps everything. -/
theorem filtered_listings_characterization_witness :
    (filteredListings ["Bengaluru"] [] [] [] fixtureTables.listings
      = fixtureTables.listings.filter (fun l =>
          ((["Bengaluru"] : List String).isEmpty ||
             decide (l.location ∈ (["Bengaluru"] : List String))) &&
          ((([] : List String).isEmpty || decide (l.providerType ∈ ([] : List String))) &&
           ((([] : List String).isEmpty || decide (l.foodType ∈ ([] : List String))) &&
            (([] : List String).isEmpty || decide (l.mealType ∈ ([] : List String))))))) ∧
    filteredListings [] [] [] [] fixtureTables.listings
      = fixtureTables.listings :=
  ⟨(filtered_listings_characterization ["Bengaluru"] [] [] []
      fixtureTables.listings).1,
   (filtered_listings_characterization [] [] [] []
      fixtureTables.listings).2.1⟩

theorem stripChars_pad (l : List Char) :
    stripChars (' ' :: (l ++ [' '])) = stripChars l := by
  unfold stripChars
  have h1 : List.dropWhile pyWS (' ' :: (l ++ [' ']))
      = List.dropWhile pyWS (l ++ [' ']) := by
    simp [List.dropWhile_cons, pyWS]
  rw [h1, List.dropWhile_append]
  by_cases he : (List.dropWhile pyWS l).isEmpty
  · rw [if_pos he]
    rw [List.isEmpty_iff.mp he]
    simp [List.dropWhile, pyWS]
  · rw [if_neg he]
    rw [List.reverse_append]
    simp [List.dropWhile_cons, pyWS]

/-- C10: categorical normalization strips surrounding whitespace before the
membership test: the result is the stripped string form of the input when
that is allowed and the default otherwise, so a value differing from an
allowed value only by surrounding whitespace is kept in stripped form, and
non-string values are compared via their string form. -/
theorem normalize_strip_semantics :
    (∀ (v : PyVal) (allowed : List String) (dflt : String),
      pyStrip v.toStr ∈ allowed → normalize v allowed dflt = pyStrip v.toStr) ∧
    (∀ (v : PyVal) (allowed : List String) (dflt : String),
      pyStrip v.toStr ∉ allowed → normalize v allowed dflt = dflt) ∧
    (∀ (s : String) (allowed : List String) (dflt : String),
      pyStrip s = s → s ∈ allowed →
      normalize (PyVal.pstr (" " ++ s ++ " ")) allowed dflt = s) := by
  refine ⟨?_, ?_, ?_⟩
  · intro v allowed dflt hmem
    simp [normalize, hmem]
  · intro v allowed dflt hna
    simp [normalize, hna]
  · intro s allowed dflt hs hmem
    have hdata : (" " ++ s ++ " ").toList = ' ' :: (s.toList ++ [' ']) := by
      show (" " ++ s ++ " ").data = ' ' :: (s.data ++ [' '])
      simp [String.data_append]
    have hstrip : pyStrip (" " ++ s ++ " ") = s := by
      unfold pyStrip
      rw [hdata, stripChars_pad]
      exact hs
    simp only [normalize, PyVal.toStr]
    rw [hstrip, if_pos hmem]

/-- C10 witness: `" Restaurant "` is kept as `"Restaurant"`, not replaced by
the default. -/
theorem normalize_strip_semantics_witness :
    pyStrip "Restaurant" = "Restaurant" ∧ "Restaurant" ∈ providerTypes ∧
    normalize (PyVal.pstr (" " ++ "Restaurant" ++ " ")) providerTypes "Other"
      = "Restaurant" :=
  ⟨by decide, by decide,
   normalize_strip_semantics.2.2 "Restaurant" providerTypes "Other"
     (by decide) (by decide)⟩

end FoodWaste
